import Mathlib

/-!
Shallow embedding of `.github/scripts/mobsf_ci.py` (MobSF CI helper driving
MASVS compliance checks), together with proofs of the specification claims.

Modelling conventions:

* JSON data (`dict[str, Any]` payloads) is modelled by the inductive `JValue`.
  JSON numbers are restricted to integers (no claim involves floats).
* Python truthiness, `or`, `dict.get`, `str()` and `int()` are modelled by
  `truthy`, `pyOr`, `dictGet` / `dictGetD`, `pyStr` and `pyInt`.
* Python runtime type errors (iterating a non-list, calling `.get` on a
  non-dict) are modelled by `Except String` error results.
* Side effects (HTTP requests issued, files written, warnings printed) are
  modelled by explicit state: functions return the list of effects they
  perform alongside their result.
-/

namespace MobsfCi

/-- JSON values, the model of Python's `Any` for payloads received from the
MobSF API.  Numbers are restricted to integers. -/
inductive JValue where
  | null : JValue
  | bool : Bool → JValue
  | num : Int → JValue
  | str : String → JValue
  | arr : List JValue → JValue
  | obj : List (String × JValue) → JValue
  deriving Repr

/-- Python truthiness: `None`, `False`, `0`, `""`, `[]` and `{}` are falsy,
everything else is truthy. -/
def truthy : JValue → Bool
  | .null => false
  | .bool b => b
  | .num n => n != 0
  | .str s => s ≠ ""
  | .arr xs => !xs.isEmpty
  | .obj fs => !fs.isEmpty

/-- Python's `a or b`: returns `a` if it is truthy, otherwise `b`. -/
def pyOr (a b : JValue) : JValue := if truthy a then a else b

/-- Python's `d.get(k, default)` on a dict modelled as an association list
(first binding wins, as dict keys are unique). -/
def dictGetD (fields : List (String × JValue)) (k : String) (default : JValue) : JValue :=
  (List.lookup k fields).getD default

/-- Python's `d.get(k)` (default `None`). -/
def dictGet (fields : List (String × JValue)) (k : String) : JValue :=
  dictGetD fields k .null

mutual

/-- Python `repr` of a JSON-like value.  String repr is simplified to plain
single quotes (no escaping); the claims only ever take `str()` of strings,
integers and booleans, where the model is exact. -/
def pyRepr : JValue → String
  | .null => "None"
  | .bool true => "True"
  | .bool false => "False"
  | .num n => toString n
  | .str s => "'" ++ s ++ "'"
  | .arr xs => "[" ++ String.intercalate ", " (pyReprList xs) ++ "]"
  | .obj fs => "\x7b" ++ String.intercalate ", " (pyReprFields fs) ++ "\x7d"

def pyReprList : List JValue → List String
  | [] => []
  | v :: vs => pyRepr v :: pyReprList vs

def pyReprFields : List (String × JValue) → List String
  | [] => []
  | (k, v) :: fs => ("'" ++ k ++ "': " ++ pyRepr v) :: pyReprFields fs

end

/-- Python `str()`.  For strings it is the identity; for every other value it
agrees with `repr`. -/
def pyStr : JValue → String
  | .str s => s
  | v => pyRepr v

/-- `PASS_TOKENS = {"pass", "passed", "compliant"}` (a set; modelled as a list,
only membership is ever used). -/
def PASS_TOKENS : List String := ["pass", "passed", "compliant"]

/-- `MASVSResult` dataclass.  `passed` is typed `int` in the source but Python
does not enforce the annotation: the aggregate branch of `parse_masvs` can
store an arbitrary truthy value there, so the field is modelled as `JValue`. -/
structure MASVSResult where
  level : String
  passed : JValue
  failed : List JValue
  deriving Repr

/-- `MASVSResult.is_compliant`: `not self.failed` (list truthiness). -/
def MASVSResult.is_compliant (r : MASVSResult) : Bool := r.failed.isEmpty

/-- Characters removed by Python's `str.strip()` (the ASCII whitespace
characters; Unicode whitespace is elided, no payload contains it). -/
def pyIsSpace (c : Char) : Bool :=
  c = ' ' || c = '\t' || c = '\n' || c = '\r' || c = '\x0b' || c = '\x0c'

/-- Python's `str.strip()`: drop leading and trailing whitespace. -/
def pyStrip (s : String) : String :=
  ⟨((s.data.dropWhile pyIsSpace).reverse.dropWhile pyIsSpace).reverse⟩

/-- Python's `str.lower()` on one character (ASCII; Unicode case folding is
elided, status tokens are ASCII). -/
def pyCharLower (c : Char) : Char :=
  if 'A' ≤ c ∧ c ≤ 'Z' then Char.ofNat (c.toNat + 32) else c

/-- Python's `str.lower()`. -/
def pyLower (s : String) : String := ⟨s.data.map pyCharLower⟩

/-- The normalised status text of one control entry (a dict):
`str(entry.get("status") or entry.get("value") or "").strip().lower()`. -/
def entryStatus (fields : List (String × JValue)) : String :=
  pyLower (pyStrip (pyStr (pyOr (dictGet fields "status") (pyOr (dictGet fields "value") (.str "")))))

/-- The per-control classification loop of `parse_masvs` (lines 181-190):
returns the running pass count and the failed entries in order.  A non-dict
entry makes Python raise (no `.get`), modelled as an error. -/
def classifyControls : List JValue → Except String (Nat × List JValue)
  | [] => .ok (0, [])
  | entry :: rest =>
    match entry with
    | .obj fields =>
      match classifyControls rest with
      | .error e => .error e
      | .ok (p, f) =>
        let status := entryStatus fields
        if status ∈ PASS_TOKENS then
          .ok (p + 1, f)
        else if status ≠ "" then
          .ok (p, entry :: f)
        else
          -- Assume failure if status is missing or unknown.
          .ok (p, entry :: f)
    | _ => .error "AttributeError: control entry has no attribute get"

/-- The aggregate `passed` value (line 196):
`aggregate.get("pass", 0) or aggregate.get("passed", 0)`. -/
def aggregatePassed (fields : List (String × JValue)) : JValue :=
  pyOr (dictGetD fields "pass" (.num 0)) (dictGetD fields "passed" (.num 0))

/-- The aggregate `failed` list (lines 195 and 197):
`failed_controls = aggregate.get("failed") or aggregate.get("non_compliant") or []`
then `failed_controls if isinstance(failed_controls, list) else []`. -/
def aggregateFailed (fields : List (String × JValue)) : List JValue :=
  match pyOr (dictGet fields "failed") (pyOr (dictGet fields "non_compliant") (.arr [])) with
  | .arr xs => xs
  | _ => []

/-- `parse_masvs(data, level)` (lines 176-199).  Iterating a truthy non-list
`controls` value, or calling `.get` on a truthy non-dict `aggregate`, raises
in Python; both are modelled as errors. -/
def parse_masvs (data : List (String × JValue)) (level : String) :
    Except String MASVSResult :=
  let controls := pyOr (dictGet data "controls") (pyOr (dictGet data "masvs_controls") (.arr []))
  match controls with
  | .arr entries =>
    match classifyControls entries with
    | .error e => .error e
    | .ok (passed, failed) =>
      -- Some MobSF versions return an aggregate dictionary instead.
      let aggregate := pyOr (dictGet data "summary") (pyOr (dictGet data "masvs_summary") (.obj []))
      if !truthy controls && truthy aggregate then
        match aggregate with
        | .obj afields =>
          .ok { level := level, passed := aggregatePassed afields, failed := aggregateFailed afields }
        | _ => .error "AttributeError: aggregate has no attribute get"
      else
        .ok { level := level, passed := .num passed, failed := failed }
  | _ => .error "TypeError: controls object is not iterable"

/-! ### Environment-driven configuration (`_get_positive_int_env`, lines 26-49) -/

/-- Digits (with Python's single-underscore digit separators) after the first
digit has been consumed: accepts `"2"`, `"_2"` chains, rejects `"_"` at the
end, doubled underscores and non-digits. -/
def pyIntDigitsAux : List Char → Nat → Option Nat
  | [], acc => some acc
  | '_' :: rest, acc =>
    match rest with
    | c :: rest' =>
      if c.isDigit then pyIntDigitsAux rest' (acc * 10 + (c.toNat - 48)) else none
    | [] => none
  | c :: rest, acc =>
    if c.isDigit then pyIntDigitsAux rest (acc * 10 + (c.toNat - 48)) else none

/-- An unsigned digit string per Python `int()`: at least one digit, single
underscores allowed between digits. -/
def pyIntDigits : List Char → Option Nat
  | [] => none
  | c :: rest => if c.isDigit then pyIntDigitsAux rest (c.toNat - 48) else none

/-- Python's `int(s)` on a string: surrounding whitespace stripped, optional
single sign, ASCII digits with underscore separators; `none` models
`ValueError` (Unicode digits are elided). -/
def pyInt (s : String) : Option Int :=
  match (pyStrip s).data with
  | '+' :: rest => (pyIntDigits rest).map Int.ofNat
  | '-' :: rest => (pyIntDigits rest).map (fun n => -(Int.ofNat n))
  | cs => (pyIntDigits cs).map Int.ofNat

def DEFAULT_POLL_DELAY_SECONDS : Int := 5

def DEFAULT_POLL_TIMEOUT_SECONDS : Int := 600

/-- `_get_positive_int_env(env_name, default)` (lines 33-45).  The environment
is passed explicitly (`env name = none` models an unset variable); the second
component is the warning printed to stderr, if any.  The function is total:
it never raises. -/
def get_positive_int_env (env_name : String) (env : String → Option String)
    (default : Int) : Int × Option String :=
  match env env_name with
  | none => (default, none)
  | some raw_value =>
    match pyInt raw_value with
    | none =>
      (default, some ("Warning: Could not parse '" ++ env_name ++ "' value '" ++ raw_value ++
        "' as an integer; using default " ++ toString default ++ "."))
    | some parsed =>
      if parsed ≤ 0 then
        (default, some ("Warning: '" ++ env_name ++ "' must be a positive integer; received " ++
          toString parsed ++ ". Using default " ++ toString default ++ "."))
      else (parsed, none)

/-- `POLL_DELAY_SECONDS` (line 48). -/
def POLL_DELAY_SECONDS (env : String → Option String) : Int × Option String :=
  get_positive_int_env "MOBSF_POLL_DELAY_SECONDS" env DEFAULT_POLL_DELAY_SECONDS

/-- `POLL_TIMEOUT_SECONDS` (line 49). -/
def POLL_TIMEOUT_SECONDS (env : String → Option String) : Int × Option String :=
  get_positive_int_env "MOBSF_POLL_TIMEOUT_SECONDS" env DEFAULT_POLL_TIMEOUT_SECONDS

/-! ### HTTP operations -/

/-- An HTTP response: status code, raw body text, and the value produced by
`response.json()` (the JSON parser is library code; `body` carries its
result). -/
structure Response where
  status : Nat
  text : String
  body : JValue
  deriving Repr

/-- `_raise_for_status(response, context)` (lines 82-87).  `requests`'
`raise_for_status` raises exactly for status codes in `[400, 600)`; the
raised `MobSFError` message is `f"{context} failed with status ..."`. -/
def raise_for_status (r : Response) (context : String) : Except String Unit :=
  if 400 ≤ r.status ∧ r.status < 600 then
    .error (context ++ " failed with status " ++ toString r.status ++ ": " ++ r.text)
  else .ok ()

/-- `upload_app` (lines 103-113), modelled from the upload response onward
(the multipart POST itself is I/O).  `required - payload.keys()` is a set
difference reported sorted; `required` sorted is
`["file_name", "hash", "scan_type"]`, and filtering it keeps that order. -/
def upload_app (resp : Response) : Except String JValue :=
  match raise_for_status resp "Upload" with
  | .error e => .error e
  | .ok _ =>
    let payload := resp.body
    match payload with
    | .obj fields =>
      let missing := ["file_name", "hash", "scan_type"].filter
        (fun k => (List.lookup k fields).isNone)
      if missing.isEmpty then .ok payload
      else .error ("Upload response missing keys: " ++ String.intercalate ", " missing)
    | _ => .error "AttributeError: upload payload has no attribute keys"

/-- The two request-body encodings used by the scan and MASVS calls:
`json=` (structured) and `data=` (form-encoded). -/
inductive Encoding where
  | json : Encoding
  | form : Encoding
  deriving Repr, DecidableEq

/-- The scan request body (lines 117-121):
`{"scan_type": ..., "file_name": ..., "hash": ...}`. -/
def scan_payload (st fn hv : JValue) : List (String × JValue) :=
  [("scan_type", st), ("file_name", fn), ("hash", hv)]

/-- The MASVS report request body (lines 162-167): the scan payload plus
`"masvs_level"`. -/
def masvs_payload (st fn hv : JValue) (level : String) : List (String × JValue) :=
  [("scan_type", st), ("file_name", fn), ("hash", hv), ("masvs_level", JValue.str level)]

/-- `trigger_scan` (lines 116-127).  `server payload enc` abstracts
`session.post("/api/v1/scan", ...)` with the given body encoding; the first
component of the result records the requests issued, in order.  A missing
metadata key models Python's `KeyError` on `upload_meta[...]`. -/
def trigger_scan (upload_meta : List (String × JValue))
    (server : List (String × JValue) → Encoding → Response) :
    List Encoding × Except String JValue :=
  match List.lookup "scan_type" upload_meta, List.lookup "file_name" upload_meta,
      List.lookup "hash" upload_meta with
  | some st, some fn, some h =>
    let response := server (scan_payload st fn h) .json
    if response.status = 415 then
      -- Some MobSF versions expect form-encoded bodies.
      let response := server (scan_payload st fn h) .form
      ([.json, .form],
        match raise_for_status response "Scan" with
        | .error e => .error e
        | .ok _ => .ok response.body)
    else
      ([.json],
        match raise_for_status response "Scan" with
        | .error e => .error e
        | .ok _ => .ok response.body)
  | _, _, _ => ([], .error "KeyError: upload metadata key missing")

/-- `request_masvs_report` (lines 155-173): same shape as `trigger_scan`, with
`masvs_level` added to the payload and the form-encoding fallback taken on
status 400 as well as 415. -/
def request_masvs_report (upload_meta : List (String × JValue)) (level : String)
    (server : List (String × JValue) → Encoding → Response) :
    List Encoding × Except String JValue :=
  match List.lookup "scan_type" upload_meta, List.lookup "file_name" upload_meta,
      List.lookup "hash" upload_meta with
  | some st, some fn, some h =>
    let response := server (masvs_payload st fn h level) .json
    if response.status = 400 ∨ response.status = 415 then
      -- Fall back to form-encoded for older MobSF releases.
      let response := server (masvs_payload st fn h level) .form
      ([.json, .form],
        match raise_for_status response "MASVS report" with
        | .error e => .error e
        | .ok _ => .ok response.body)
    else
      ([.json],
        match raise_for_status response "MASVS report" with
        | .error e => .error e
        | .ok _ => .ok response.body)
  | _, _, _ => ([], .error "KeyError: upload metadata key missing")

/-! ### Readiness probe (`wait_for_server`, lines 90-100)

Time is idealised: each `GET` is instantaneous and is followed by a 3-second
sleep, so attempt `k` (0-based) happens at time `3 * k` and runs exactly when
`3 * k < timeout`.  `probe k = none` models a network-level
`RequestException` on attempt `k`; `probe k = some s` a response with status
`s`.  The first component of the result counts the probes issued. -/

/-- The polling loop of `wait_for_server`, entered with `k` attempts already
made. -/
def waitForServerGo (probe : Nat → Option Nat) (base_url : String) (timeout : Nat)
    (k : Nat) : Nat × Except String Unit :=
  if h : 3 * k < timeout then
    -- `if response.status_code == 200: return`; an exception falls through.
    if probe k = some 200 then (k + 1, .ok ())
    else waitForServerGo probe base_url timeout (k + 1)
  else
    (k, .error ("MobSF server at " ++ base_url ++ " did not become ready within " ++
      toString timeout ++ " seconds."))
termination_by timeout - 3 * k
decreasing_by omega

/-- `wait_for_server(session, base_url, timeout=120)`. -/
def wait_for_server (probe : Nat → Option Nat) (base_url : String)
    (timeout : Nat := 120) : Nat × Except String Unit :=
  waitForServerGo probe base_url timeout 0

/-! ### JSON serialisation (`json.dumps`, used at line 240)

`jsonEscape` covers the escapes that `json.dumps` emits for the characters
occurring in payloads (quote, backslash, newline, tab, carriage return);
`\uXXXX` escaping of other control characters is elided. -/

def jsonEscapeChar (c : Char) : String :=
  if c = '"' then "\\\""
  else if c = '\\' then "\\\\"
  else if c = '\n' then "\\n"
  else if c = '\t' then "\\t"
  else if c = '\r' then "\\r"
  else String.mk [c]

def jsonEscape (s : String) : String :=
  String.join (s.data.map jsonEscapeChar)

/-- `indent * level` two-space indentation used by `json.dumps(..., indent=2)`. -/
def jsonIndent (d : Nat) : String := String.mk (List.replicate (2 * d) ' ')

mutual

/-- `json.dumps(v, indent=2)` rendered at nesting depth `d` (item separator
`","` + newline, key separator `": "`, empty containers inline). -/
def jsonDumpsIndent2 : JValue → Nat → String
  | .null, _ => "null"
  | .bool true, _ => "true"
  | .bool false, _ => "false"
  | .num n, _ => toString n
  | .str s, _ => "\"" ++ jsonEscape s ++ "\""
  | .arr [], _ => "[]"
  | .arr (x :: xs), d =>
    "[\n" ++ String.intercalate ",\n" (jsonDumpsIndent2List (x :: xs) (d + 1)) ++
      "\n" ++ jsonIndent d ++ "]"
  | .obj [], _ => "\x7b\x7d"
  | .obj (f :: fs), d =>
    "\x7b\n" ++ String.intercalate ",\n" (jsonDumpsIndent2Fields (f :: fs) (d + 1)) ++
      "\n" ++ jsonIndent d ++ "\x7d"

def jsonDumpsIndent2List : List JValue → Nat → List String
  | [], _ => []
  | v :: vs, d => (jsonIndent d ++ jsonDumpsIndent2 v d) :: jsonDumpsIndent2List vs d

def jsonDumpsIndent2Fields : List (String × JValue) → Nat → List String
  | [], _ => []
  | (k, v) :: fs, d =>
    (jsonIndent d ++ "\"" ++ jsonEscape k ++ "\": " ++ jsonDumpsIndent2 v d) ::
      jsonDumpsIndent2Fields fs d

end

mutual

/-- `json.dumps(v)` with default separators `", "` and `": "` — the compact
serialisation a service typically sends on the wire. -/
def jsonDumpsCompact : JValue → String
  | .null => "null"
  | .bool true => "true"
  | .bool false => "false"
  | .num n => toString n
  | .str s => "\"" ++ jsonEscape s ++ "\""
  | .arr xs => "[" ++ String.intercalate ", " (jsonDumpsCompactList xs) ++ "]"
  | .obj fs => "\x7b" ++ String.intercalate ", " (jsonDumpsCompactFields fs) ++ "\x7d"

def jsonDumpsCompactList : List JValue → List String
  | [] => []
  | v :: vs => jsonDumpsCompact v :: jsonDumpsCompactList vs

def jsonDumpsCompactFields : List (String × JValue) → List String
  | [] => []
  | (k, v) :: fs => ("\"" ++ jsonEscape k ++ "\": " ++ jsonDumpsCompact v) :: jsonDumpsCompactFields fs

end

/-! ### Audit tail (`run_masvs_audit` lines 237-253 and `main` lines 291-339) -/

/-- Filesystem effects performed by `run_masvs_audit` after the MASVS report
arrives (print statements are elided). -/
inductive AuditEffect where
  | mkdirParents : String → AuditEffect
  | writeFile : (path : String) → (content : String) → AuditEffect
  deriving Repr, DecidableEq

/-- The tail of `run_masvs_audit` (lines 237-253), from the raw MASVS payload
`masvs_raw` (the dict returned by `request_masvs_report`) onward: when an
output path is given, the parent directory is created and
`json.dumps(masvs_raw, indent=2)` is written to it, before `parse_masvs`
runs; then a `MobSFError` is raised when violations exist and
`fail_on_violation` is set. -/
def run_masvs_audit_tail (masvs_raw : List (String × JValue)) (level : String)
    (fail_on_violation : Bool) (output_path : Option String) :
    List AuditEffect × Except String MASVSResult :=
  let effects := match output_path with
    | some p => [.mkdirParents p, .writeFile p (jsonDumpsIndent2 (.obj masvs_raw) 0)]
    | none => []
  let outcome : Except String MASVSResult :=
    match parse_masvs masvs_raw level with
    | .error e => .error e
    | .ok result =>
      if !result.failed.isEmpty then
        if fail_on_violation then
          .error "MASVS compliance check failed due to policy violations."
        else .ok result
      else .ok result
  (effects, outcome)

/-- The exit code computed by `main` (lines 291-339): a `MobSFError` escaping
`run_masvs_audit` yields 1, a normal result yields 0 (even when violations
were found but `fail_on_violation` is false). -/
def main_exit_code (outcome : Except String MASVSResult) : Nat :=
  match outcome with
  | .error _ => 1
  | .ok _ => 0

/-! ### Helper predicates and lemmas -/

/-- Whether the classification loop counts a control entry as passed: the
entry is a dict and its normalised status is one of the pass synonyms. -/
def entryIsPass : JValue → Bool
  | .obj fields => decide (entryStatus fields ∈ PASS_TOKENS)
  | _ => false

/-- The spec's running example payload:
`{"controls":[{"control":"C1","status":"Passed"},{"control":"C2","status":"Failed","description":"d","remediation":"r"}]}`. -/
def examplePayload : List (String × JValue) :=
  [("controls", JValue.arr [
    JValue.obj [("control", JValue.str "C1"), ("status", JValue.str "Passed")],
    JValue.obj [("control", JValue.str "C2"), ("status", JValue.str "Failed"),
      ("description", JValue.str "d"), ("remediation", JValue.str "r")]])]

/-- The failing entry of the example payload. -/
def exampleFailedEntry : JValue :=
  JValue.obj [("control", JValue.str "C2"), ("status", JValue.str "Failed"),
    ("description", JValue.str "d"), ("remediation", JValue.str "r")]

/-- On a list of dict entries, the classification loop succeeds and returns
the count of passing entries and the non-passing entries, in order. -/
lemma classifyControls_all_obj (entries : List JValue)
    (h : ∀ e ∈ entries, ∃ fields, e = JValue.obj fields) :
    classifyControls entries =
      .ok ((entries.filter (fun e => entryIsPass e)).length,
           entries.filter (fun e => !entryIsPass e)) := by
  induction entries with
  | nil => rfl
  | cons e rest ih =>
    obtain ⟨fields, rfl⟩ := h e (by simp)
    have hrest := ih (fun x hx => h x (by simp [hx]))
    by_cases hp : entryStatus fields ∈ PASS_TOKENS
    · simp [classifyControls, hrest, hp, entryIsPass, List.filter_cons]
    · simp [classifyControls, hrest, hp, entryIsPass, List.filter_cons, ite_self]

/-- `parse_masvs` on a payload whose only key is a `controls` list of dict
entries: the result comes from the classification loop. -/
lemma parse_masvs_controls_only (entries : List JValue) (level : String)
    (h : ∀ e ∈ entries, ∃ fields, e = JValue.obj fields) :
    parse_masvs [("controls", JValue.arr entries)] level =
      .ok ⟨level, .num (entries.filter (fun e => entryIsPass e)).length,
           entries.filter (fun e => !entryIsPass e)⟩ := by
  cases entries with
  | nil => rfl
  | cons e rest =>
    simp [parse_masvs, dictGet, dictGetD, List.lookup, pyOr, truthy,
      classifyControls_all_obj _ h]

/-! ### Claims -/

/-- C1: For the payload
`{"controls":[{"control":"C1","status":"Passed"},{"control":"C2","status":"Failed","description":"d","remediation":"r"}]}`,
`parse_masvs` returns `passed = 1` and `failed` equal to the one-element list
holding the C2 entry, `is_compliant` is false, and with `fail_on_violation`
set the audit raises the `MobSFError`
"MASVS compliance check failed due to policy violations.", so `main` returns
exit code 1. -/
theorem c1_example_payload :
    parse_masvs examplePayload "L2" = .ok ⟨"L2", .num 1, [exampleFailedEntry]⟩ ∧
    (MASVSResult.mk "L2" (.num 1) [exampleFailedEntry]).is_compliant = false ∧
    (run_masvs_audit_tail examplePayload "L2" true none).2 =
      .error "MASVS compliance check failed due to policy violations." ∧
    main_exit_code (run_masvs_audit_tail examplePayload "L2" true none).2 = 1 :=
  ⟨rfl, rfl, rfl, rfl⟩

/-- C2: For every per-control list in which every entry's normalised status
text is a pass synonym, `parse_masvs` yields an empty `failed` sequence and a
compliant result; and in general `is_compliant` holds iff `failed` is
empty. -/
theorem c2_all_pass_compliant :
    (∀ (entries : List JValue) (level : String),
      (∀ e ∈ entries, ∃ fields, e = JValue.obj fields ∧ entryStatus fields ∈ PASS_TOKENS) →
      ∃ r, parse_masvs [("controls", JValue.arr entries)] level = .ok r ∧
        r.failed = [] ∧ r.is_compliant = true) ∧
    (∀ r : MASVSResult, r.is_compliant = true ↔ r.failed = []) := by
  constructor
  · intro entries level h
    have hfail : entries.filter (fun e => !entryIsPass e) = [] := by
      rw [List.filter_eq_nil_iff]
      intro a ha
      obtain ⟨fields, rfl, hp⟩ := h a ha
      simp [entryIsPass, hp]
    refine ⟨_, parse_masvs_controls_only entries level
      (fun e he => (h e he).imp fun _ hf => hf.1), ?_, ?_⟩
    · exact hfail
    · simp [MASVSResult.is_compliant, hfail]
  · intro r
    simp [MASVSResult.is_compliant, List.isEmpty_iff]

/-- C2 witness: a concrete singleton control list with status `" PASS "`
(case/whitespace-normalised to a pass synonym) is compliant with no failed
entries, and `is_compliant` of a concrete result with empty `failed` holds. -/
theorem c2_all_pass_compliant_witness :
    (∃ r, parse_masvs [("controls", JValue.arr [JValue.obj [("status", JValue.str " PASS ")]])]
        "L1" = .ok r ∧ r.failed = [] ∧ r.is_compliant = true) ∧
    ((MASVSResult.mk "L1" (.num 1) []).is_compliant = true ↔
      (MASVSResult.mk "L1" (.num 1) []).failed = []) := by
  refine ⟨c2_all_pass_compliant.1 [JValue.obj [("status", JValue.str " PASS ")]] "L1" ?_,
    c2_all_pass_compliant.2 _⟩
  intro e he
  rw [List.mem_singleton] at he
  subst he
  exact ⟨_, rfl, by decide⟩

/-- C3: For every per-control list of dict entries, exactly the entries whose
normalised status is outside `PASS_TOKENS` (including empty or missing
statuses) make up the `failed` sequence, verbatim and in order; in
particular every such entry is a member of `failed`. -/
theorem c3_non_pass_entries_in_failed :
    ∀ (entries : List JValue) (level : String),
      (∀ e ∈ entries, ∃ fields, e = JValue.obj fields) →
      ∃ r, parse_masvs [("controls", JValue.arr entries)] level = .ok r ∧
        r.failed = entries.filter (fun e => !entryIsPass e) ∧
        ∀ e ∈ entries, entryIsPass e = false → e ∈ r.failed := by
  intro entries level h
  refine ⟨_, parse_masvs_controls_only entries level h, rfl, ?_⟩
  intro e he hnp
  simp [List.mem_filter, he, hnp]

/-- C3 witness: a list with one failing-status entry, one missing-status
entry and one passing entry puts exactly the first two, unchanged and in
order, into `failed`. -/
theorem c3_non_pass_entries_in_failed_witness :
    ∃ r, parse_masvs [("controls", JValue.arr [
        JValue.obj [("control", JValue.str "X"), ("status", JValue.str "Failed")],
        JValue.obj [("control", JValue.str "Y")],
        JValue.obj [("control", JValue.str "Z"), ("status", JValue.str "passed")]])] "L2" =
      .ok r ∧
      r.failed = List.filter (fun e => !entryIsPass e) [
        JValue.obj [("control", JValue.str "X"), ("status", JValue.str "Failed")],
        JValue.obj [("control", JValue.str "Y")],
        JValue.obj [("control", JValue.str "Z"), ("status", JValue.str "passed")]] ∧
      ∀ e ∈ [JValue.obj [("control", JValue.str "X"), ("status", JValue.str "Failed")],
        JValue.obj [("control", JValue.str "Y")],
        JValue.obj [("control", JValue.str "Z"), ("status", JValue.str "passed")]],
        entryIsPass e = false → e ∈ r.failed := by
  refine c3_non_pass_entries_in_failed _ "L2" ?_
  intro e he
  rcases List.mem_cons.mp he with h | he
  · exact ⟨_, h⟩
  rcases List.mem_cons.mp he with h | he
  · exact ⟨_, h⟩
  rw [List.mem_singleton] at he
  exact ⟨_, he⟩

/-- C10: A payload where the `controls` / `masvs_controls` keys and the
`summary` / `masvs_summary` keys are all absent or falsy parses to
`passed = 0`, `failed = []`, so the result counts as compliant. -/
theorem c10_empty_report_compliant :
    ∀ (data : List (String × JValue)) (level : String),
      truthy (dictGet data "controls") = false →
      truthy (dictGet data "masvs_controls") = false →
      truthy (dictGet data "summary") = false →
      truthy (dictGet data "masvs_summary") = false →
      parse_masvs data level = .ok ⟨level, .num 0, []⟩ ∧
        (MASVSResult.mk level (.num 0) []).is_compliant = true := by
  intro data level h1 h2 h3 h4
  have hc : pyOr (dictGet data "controls")
      (pyOr (dictGet data "masvs_controls") (JValue.arr [])) = .arr [] := by
    simp [pyOr, h1, h2]
  have ha : pyOr (dictGet data "summary")
      (pyOr (dictGet data "masvs_summary") (JValue.obj [])) = .obj [] := by
    simp [pyOr, h3, h4]
  constructor
  · simp [parse_masvs, hc, ha, classifyControls, truthy]
  · rfl

/-- C10 witness: the empty payload (no keys at all) is parsed as a compliant
result with `passed = 0` and no failures. -/
theorem c10_empty_report_compliant_witness :
    parse_masvs [] "L2" = .ok ⟨"L2", .num 0, []⟩ ∧
      (MASVSResult.mk "L2" (.num 0) []).is_compliant = true :=
  c10_empty_report_compliant [] "L2" rfl rfl rfl rfl

/-- C4: When neither per-control key holds a truthy value and the aggregate
summary is a truthy dict, the result's `passed` comes from the aggregate's
`pass` / `passed` counts and its `failed` from the aggregate's
`failed` / `non_compliant` lists; and conversely, when a non-empty
per-control list is present, the result comes from the classification loop
alone, whatever the summary keys hold. -/
theorem c4_aggregate_path :
    (∀ (data : List (String × JValue)) (level : String) (afields : List (String × JValue)),
      truthy (dictGet data "controls") = false →
      truthy (dictGet data "masvs_controls") = false →
      pyOr (dictGet data "summary") (pyOr (dictGet data "masvs_summary") (.obj [])) =
        .obj afields →
      truthy (.obj afields) = true →
      parse_masvs data level =
        .ok ⟨level, aggregatePassed afields, aggregateFailed afields⟩) ∧
    (∀ (data : List (String × JValue)) (level : String) (e : JValue) (es : List JValue),
      dictGet data "controls" = .arr (e :: es) →
      (∀ x ∈ e :: es, ∃ fields, x = JValue.obj fields) →
      parse_masvs data level =
        .ok ⟨level, .num ((e :: es).filter (fun x => entryIsPass x)).length,
          (e :: es).filter (fun x => !entryIsPass x)⟩) := by
  constructor
  · intro data level afields h1 h2 h3 h4
    have hc : pyOr (dictGet data "controls")
        (pyOr (dictGet data "masvs_controls") (.arr [])) = .arr [] := by
      simp [pyOr, h1, h2]
    rw [parse_masvs, hc]
    simp only [classifyControls]
    rw [h3]
    have ht : truthy (JValue.arr ([] : List JValue)) = false := rfl
    simp [ht, h4]
  · intro data level e es hc hall
    have hc' : pyOr (dictGet data "controls")
        (pyOr (dictGet data "masvs_controls") (.arr [])) = .arr (e :: es) := by
      simp [pyOr, hc, truthy]
    rw [parse_masvs, hc']
    simp [classifyControls_all_obj _ hall, truthy]

/-- C4 witness: a payload with only a summary dict takes `passed = 3` and the
`failed` list from the aggregate, and a payload with a non-empty `controls`
list ignores the summary dict sitting next to it. -/
theorem c4_aggregate_path_witness :
    parse_masvs [("summary", JValue.obj [("passed", JValue.num 3),
        ("failed", JValue.arr [JValue.str "V1"])])] "L2" =
      .ok ⟨"L2", aggregatePassed [("passed", JValue.num 3),
        ("failed", JValue.arr [JValue.str "V1"])],
        aggregateFailed [("passed", JValue.num 3), ("failed", JValue.arr [JValue.str "V1"])]⟩ ∧
    parse_masvs [("controls", JValue.arr [JValue.obj [("status", JValue.str "Passed")]]),
        ("summary", JValue.obj [("failed", JValue.arr [JValue.str "V2"])])] "L2" =
      .ok ⟨"L2",
        .num ([JValue.obj [("status", JValue.str "Passed")]].filter
          (fun x => entryIsPass x)).length,
        [JValue.obj [("status", JValue.str "Passed")]].filter (fun x => !entryIsPass x)⟩ := by
  constructor
  · exact c4_aggregate_path.1 _ "L2" _ rfl rfl rfl rfl
  · refine c4_aggregate_path.2 _ "L2" _ [] rfl ?_
    intro x hx
    rw [List.mem_singleton] at hx
    exact ⟨_, hx⟩

/-- C5: For every string value set for the poll delay / poll timeout
environment overrides, the configuration loader is total (it never raises):
a string parsing as a positive integer yields that integer with no warning,
and any other string (non-numeric or non-positive) yields the documented
defaults (5 seconds delay, 600 seconds timeout) together with a warning for
the error stream. -/
theorem c5_env_override_validation (raw : String) :
    (∀ n : Int, pyInt raw = some n → 0 < n →
      POLL_DELAY_SECONDS (fun _ => some raw) = (n, none) ∧
      POLL_TIMEOUT_SECONDS (fun _ => some raw) = (n, none)) ∧
    ((pyInt raw = none ∨ ∃ n : Int, pyInt raw = some n ∧ n ≤ 0) →
      ((POLL_DELAY_SECONDS (fun _ => some raw)).1 = DEFAULT_POLL_DELAY_SECONDS ∧
        (POLL_DELAY_SECONDS (fun _ => some raw)).2.isSome = true ∧
        (POLL_TIMEOUT_SECONDS (fun _ => some raw)).1 = DEFAULT_POLL_TIMEOUT_SECONDS ∧
        (POLL_TIMEOUT_SECONDS (fun _ => some raw)).2.isSome = true)) := by
  constructor
  · intro n hp hpos
    have hn : ¬ n ≤ 0 := by omega
    exact ⟨by simp [POLL_DELAY_SECONDS, get_positive_int_env, hp, hn],
      by simp [POLL_TIMEOUT_SECONDS, get_positive_int_env, hp, hn]⟩
  · rintro (hp | ⟨n, hp, hn⟩)
    · simp [POLL_DELAY_SECONDS, POLL_TIMEOUT_SECONDS, get_positive_int_env, hp]
    · simp [POLL_DELAY_SECONDS, POLL_TIMEOUT_SECONDS, get_positive_int_env, hp, hn]

/-- C5 witness: `"7"` is accepted as 7 for both overrides with no warning;
`"abc"` (non-numeric) and `"-3"` (non-positive) fall back to the defaults 5
and 600 with a warning. -/
theorem c5_env_override_validation_witness :
    (POLL_DELAY_SECONDS (fun _ => some "7") = (7, none) ∧
      POLL_TIMEOUT_SECONDS (fun _ => some "7") = (7, none)) ∧
    ((POLL_DELAY_SECONDS (fun _ => some "abc")).1 = DEFAULT_POLL_DELAY_SECONDS ∧
      (POLL_DELAY_SECONDS (fun _ => some "abc")).2.isSome = true ∧
      (POLL_TIMEOUT_SECONDS (fun _ => some "abc")).1 = DEFAULT_POLL_TIMEOUT_SECONDS ∧
      (POLL_TIMEOUT_SECONDS (fun _ => some "abc")).2.isSome = true) ∧
    ((POLL_DELAY_SECONDS (fun _ => some "-3")).1 = DEFAULT_POLL_DELAY_SECONDS ∧
      (POLL_DELAY_SECONDS (fun _ => some "-3")).2.isSome = true ∧
      (POLL_TIMEOUT_SECONDS (fun _ => some "-3")).1 = DEFAULT_POLL_TIMEOUT_SECONDS ∧
      (POLL_TIMEOUT_SECONDS (fun _ => some "-3")).2.isSome = true) :=
  ⟨(c5_env_override_validation "7").1 7 (by decide) (by decide),
    (c5_env_override_validation "abc").2 (Or.inl (by decide)),
    (c5_env_override_validation "-3").2 (Or.inr ⟨-3, by decide, by decide⟩)⟩

/-- C6: For every upload response with a success status whose payload is a
dict, `upload_app` returns the payload unchanged iff all three
`UploadMetadata` keys (`hash`, `scan_type`, `file_name`) are present, and
raises the `MobSFError` when at least one is missing. -/
theorem c6_upload_required_keys :
    ∀ (resp : Response) (fields : List (String × JValue)),
      resp.status < 400 →
      resp.body = .obj fields →
      ((upload_app resp = .ok resp.body ↔
        ((List.lookup "hash" fields).isSome ∧ (List.lookup "scan_type" fields).isSome ∧
          (List.lookup "file_name" fields).isSome)) ∧
       (((List.lookup "hash" fields).isSome = false ∨
          (List.lookup "scan_type" fields).isSome = false ∨
          (List.lookup "file_name" fields).isSome = false) →
         ∃ msg, upload_app resp = .error msg)) := by
  intro resp fields hs hb
  have hr : raise_for_status resp "Upload" = .ok () := by
    rw [raise_for_status, if_neg]
    omega
  rcases hfn : List.lookup "file_name" fields with _ | fnv <;>
    rcases hh : List.lookup "hash" fields with _ | hv <;>
      rcases hst : List.lookup "scan_type" fields with _ | stv <;>
        simp [upload_app, hr, hb, hfn, hh, hst, List.filter]

/-- C6 witness: a 200 upload response with all three keys is returned
unchanged; one missing `hash` raises. -/
theorem c6_upload_required_keys_witness :
    (upload_app ⟨200, "", .obj [("hash", JValue.str "abc"), ("scan_type", JValue.str "apk"),
        ("file_name", JValue.str "app.apk")]⟩ =
      .ok (.obj [("hash", JValue.str "abc"), ("scan_type", JValue.str "apk"),
        ("file_name", JValue.str "app.apk")])) ∧
    (∃ msg, upload_app ⟨200, "", .obj [("scan_type", JValue.str "apk"),
        ("file_name", JValue.str "app.apk")]⟩ = .error msg) := by
  constructor
  · exact (c6_upload_required_keys ⟨200, "", .obj [("hash", JValue.str "abc"),
      ("scan_type", JValue.str "apk"), ("file_name", JValue.str "app.apk")]⟩ _
      (by decide) rfl).1.mpr (by decide)
  · exact (c6_upload_required_keys ⟨200, "", .obj [("scan_type", JValue.str "apk"),
      ("file_name", JValue.str "app.apk")]⟩ _ (by decide) rfl).2 (Or.inl (by decide))

/-- C7: `trigger_scan` issues a second, form-encoded request iff the first
response's status is 415; `request_masvs_report` does so iff the first status
is 400 or 415.  In both, a success status (< 400) on the deciding (final)
response returns its parsed body, and a failure status (400-599) on the
final response raises the `MobSFError`. -/
theorem c7_encoding_fallback :
    ∀ (meta : List (String × JValue)) (st fn hv : JValue) (level : String)
      (server : List (String × JValue) → Encoding → Response),
      List.lookup "scan_type" meta = some st →
      List.lookup "file_name" meta = some fn →
      List.lookup "hash" meta = some hv →
      (((trigger_scan meta server).1 =
          if (server (scan_payload st fn hv) .json).status = 415 then
            [Encoding.json, Encoding.form] else [Encoding.json]) ∧
       ((if (server (scan_payload st fn hv) .json).status = 415 then
            server (scan_payload st fn hv) .form
          else server (scan_payload st fn hv) .json).status < 400 →
        (trigger_scan meta server).2 =
          .ok (if (server (scan_payload st fn hv) .json).status = 415 then
              server (scan_payload st fn hv) .form
            else server (scan_payload st fn hv) .json).body) ∧
       (400 ≤ (if (server (scan_payload st fn hv) .json).status = 415 then
            server (scan_payload st fn hv) .form
          else server (scan_payload st fn hv) .json).status →
        (if (server (scan_payload st fn hv) .json).status = 415 then
            server (scan_payload st fn hv) .form
          else server (scan_payload st fn hv) .json).status < 600 →
        ∃ msg, (trigger_scan meta server).2 = .error msg) ∧
       ((request_masvs_report meta level server).1 =
          if (server (masvs_payload st fn hv level) .json).status = 400 ∨
              (server (masvs_payload st fn hv level) .json).status = 415 then
            [Encoding.json, Encoding.form] else [Encoding.json]) ∧
       ((if (server (masvs_payload st fn hv level) .json).status = 400 ∨
              (server (masvs_payload st fn hv level) .json).status = 415 then
            server (masvs_payload st fn hv level) .form
          else server (masvs_payload st fn hv level) .json).status < 400 →
        (request_masvs_report meta level server).2 =
          .ok (if (server (masvs_payload st fn hv level) .json).status = 400 ∨
              (server (masvs_payload st fn hv level) .json).status = 415 then
              server (masvs_payload st fn hv level) .form
            else server (masvs_payload st fn hv level) .json).body) ∧
       (400 ≤ (if (server (masvs_payload st fn hv level) .json).status = 400 ∨
              (server (masvs_payload st fn hv level) .json).status = 415 then
            server (masvs_payload st fn hv level) .form
          else server (masvs_payload st fn hv level) .json).status →
        (if (server (masvs_payload st fn hv level) .json).status = 400 ∨
              (server (masvs_payload st fn hv level) .json).status = 415 then
            server (masvs_payload st fn hv level) .form
          else server (masvs_payload st fn hv level) .json).status < 600 →
        ∃ msg, (request_masvs_report meta level server).2 = .error msg)) := by
  intro meta st fn hv level server h1 h2 h3
  have hok : ∀ (r : Response) (c : String), r.status < 400 →
      raise_for_status r c = .ok () := by
    intro r c hr
    rw [raise_for_status, if_neg]
    omega
  have herr : ∀ (r : Response) (c : String), 400 ≤ r.status → r.status < 600 →
      ∃ msg, raise_for_status r c = .error msg := by
    intro r c hr hr'
    exact ⟨_, by rw [raise_for_status, if_pos ⟨hr, hr'⟩]⟩
  refine ⟨?_, ?_, ?_, ?_, ?_, ?_⟩
  · simp only [trigger_scan, h1, h2, h3]
    by_cases hsc : (server (scan_payload st fn hv) .json).status = 415 <;> simp [hsc]
  · simp only [trigger_scan, h1, h2, h3]
    by_cases hsc : (server (scan_payload st fn hv) .json).status = 415 <;>
        simp only [hsc, if_true, if_false, ite_true, ite_false] <;>
      intro hlt <;> rw [hok _ _ hlt]
  · simp only [trigger_scan, h1, h2, h3]
    by_cases hsc : (server (scan_payload st fn hv) .json).status = 415 <;>
        simp only [hsc, if_true, if_false, ite_true, ite_false] <;>
      intro hge hlt <;>
      obtain ⟨msg, hmsg⟩ := herr _ "Scan" hge hlt <;>
      exact ⟨msg, by rw [hmsg]⟩
  · simp only [request_masvs_report, h1, h2, h3]
    by_cases hmv : (server (masvs_payload st fn hv level) .json).status = 400 ∨
        (server (masvs_payload st fn hv level) .json).status = 415 <;> simp [hmv]
  · simp only [request_masvs_report, h1, h2, h3]
    by_cases hmv : (server (masvs_payload st fn hv level) .json).status = 400 ∨
        (server (masvs_payload st fn hv level) .json).status = 415 <;>
        simp only [hmv, if_true, if_false, ite_true, ite_false] <;>
      intro hlt <;> rw [hok _ _ hlt]
  · simp only [request_masvs_report, h1, h2, h3]
    by_cases hmv : (server (masvs_payload st fn hv level) .json).status = 400 ∨
        (server (masvs_payload st fn hv level) .json).status = 415 <;>
        simp only [hmv, if_true, if_false, ite_true, ite_false] <;>
      intro hge hlt <;>
      obtain ⟨msg, hmsg⟩ := herr _ "MASVS report" hge hlt <;>
      exact ⟨msg, by rw [hmsg]⟩

/-- C7 witness: a scan server answering 415 then 200 retries once with form
encoding and returns the body; a MASVS server answering 400 then 500 retries
once and raises; a scan server answering 200 first does not retry. -/
theorem c7_encoding_fallback_witness :
    (trigger_scan [("scan_type", JValue.str "apk"), ("file_name", JValue.str "a.apk"),
        ("hash", JValue.str "h")]
      (fun _ e => match e with
        | .json => ⟨415, "unsupported", JValue.null⟩
        | .form => ⟨200, "", JValue.str "started"⟩)).1 = [Encoding.json, Encoding.form] ∧
    (trigger_scan [("scan_type", JValue.str "apk"), ("file_name", JValue.str "a.apk"),
        ("hash", JValue.str "h")]
      (fun _ e => match e with
        | .json => ⟨415, "unsupported", JValue.null⟩
        | .form => ⟨200, "", JValue.str "started"⟩)).2 = .ok (JValue.str "started") ∧
    (trigger_scan [("scan_type", JValue.str "apk"), ("file_name", JValue.str "a.apk"),
        ("hash", JValue.str "h")]
      (fun _ e => match e with
        | .json => ⟨200, "", JValue.str "started"⟩
        | .form => ⟨500, "", JValue.null⟩)).1 = [Encoding.json] ∧
    (request_masvs_report [("scan_type", JValue.str "apk"), ("file_name", JValue.str "a.apk"),
        ("hash", JValue.str "h")] "L2"
      (fun _ e => match e with
        | .json => ⟨400, "bad", JValue.null⟩
        | .form => ⟨500, "boom", JValue.null⟩)).1 = [Encoding.json, Encoding.form] ∧
    (∃ msg, (request_masvs_report [("scan_type", JValue.str "apk"),
        ("file_name", JValue.str "a.apk"), ("hash", JValue.str "h")] "L2"
      (fun _ e => match e with
        | .json => ⟨400, "bad", JValue.null⟩
        | .form => ⟨500, "boom", JValue.null⟩)).2 = .error msg) := by
  refine ⟨?_, ?_, ?_, ?_, ?_⟩
  · exact (c7_encoding_fallback
      [("scan_type", JValue.str "apk"), ("file_name", JValue.str "a.apk"),
        ("hash", JValue.str "h")]
      (JValue.str "apk") (JValue.str "a.apk") (JValue.str "h") "L2"
      (fun _ e => match e with
        | .json => ⟨415, "unsupported", JValue.null⟩
        | .form => ⟨200, "", JValue.str "started"⟩) rfl rfl rfl).1
  · exact (c7_encoding_fallback
      [("scan_type", JValue.str "apk"), ("file_name", JValue.str "a.apk"),
        ("hash", JValue.str "h")]
      (JValue.str "apk") (JValue.str "a.apk") (JValue.str "h") "L2"
      (fun _ e => match e with
        | .json => ⟨415, "unsupported", JValue.null⟩
        | .form => ⟨200, "", JValue.str "started"⟩) rfl rfl rfl).2.1 (by decide)
  · exact (c7_encoding_fallback
      [("scan_type", JValue.str "apk"), ("file_name", JValue.str "a.apk"),
        ("hash", JValue.str "h")]
      (JValue.str "apk") (JValue.str "a.apk") (JValue.str "h") "L2"
      (fun _ e => match e with
        | .json => ⟨200, "", JValue.str "started"⟩
        | .form => ⟨500, "", JValue.null⟩) rfl rfl rfl).1
  · exact (c7_encoding_fallback
      [("scan_type", JValue.str "apk"), ("file_name", JValue.str "a.apk"),
        ("hash", JValue.str "h")]
      (JValue.str "apk") (JValue.str "a.apk") (JValue.str "h") "L2"
      (fun _ e => match e with
        | .json => ⟨400, "bad", JValue.null⟩
        | .form => ⟨500, "boom", JValue.null⟩) rfl rfl rfl).2.2.2.1
  · exact (c7_encoding_fallback
      [("scan_type", JValue.str "apk"), ("file_name", JValue.str "a.apk"),
        ("hash", JValue.str "h")]
      (JValue.str "apk") (JValue.str "a.apk") (JValue.str "h") "L2"
      (fun _ e => match e with
        | .json => ⟨400, "bad", JValue.null⟩
        | .form => ⟨500, "boom", JValue.null⟩) rfl rfl rfl).2.2.2.2.2 (by decide) (by decide)

/-- Success lemma for the readiness-probe loop: if attempt `N` is the first
returning status 200 and falls before the deadline, entering the loop at any
`j ≤ N` with no earlier success in `[j, N)` stops right after attempt `N`. -/
lemma waitForServerGo_success (probe : Nat → Option Nat) (url : String) (timeout N : Nat)
    (hN : 3 * N < timeout) (hs : probe N = some 200) :
    ∀ d j, N - j = d → j ≤ N → (∀ k, j ≤ k → k < N → probe k ≠ some 200) →
      waitForServerGo probe url timeout j = (N + 1, .ok ()) := by
  intro d
  induction d with
  | zero =>
    intro j hd hj hmin
    have hjN : j = N := by omega
    subst hjN
    rw [waitForServerGo, dif_pos hN, if_pos hs]
  | succ d ih =>
    intro j hd hj hmin
    have hjN : j < N := by omega
    have h3 : 3 * j < timeout := by omega
    rw [waitForServerGo, dif_pos h3, if_neg (hmin j le_rfl hjN)]
    exact ih (j + 1) (by omega) (by omega) (fun k hk1 hk2 => hmin k (by omega) hk2)

/-- Timeout lemma for the readiness-probe loop: if no attempt before the
deadline returns status 200, the loop ends in the timeout error. -/
lemma waitForServerGo_timeout (probe : Nat → Option Nat) (url : String) (timeout : Nat)
    (hfail : ∀ k, 3 * k < timeout → probe k ≠ some 200) :
    ∀ d j, timeout - 3 * j ≤ d →
      (waitForServerGo probe url timeout j).2 =
        .error ("MobSF server at " ++ url ++ " did not become ready within " ++
          toString timeout ++ " seconds.") := by
  intro d
  induction d with
  | zero =>
    intro j hd
    have h3 : ¬ 3 * j < timeout := by omega
    rw [waitForServerGo, dif_neg h3]
  | succ d ih =>
    intro j hd
    by_cases h3 : 3 * j < timeout
    · rw [waitForServerGo, dif_pos h3, if_neg (hfail j h3)]
      exact ih (j + 1) (by omega)
    · rw [waitForServerGo, dif_neg h3]

/-- C9: The readiness probe treats a network failure (`probe k = none`) or a
non-200 status on attempt `k` as not-yet-ready and retries; it returns
success right after the first attempt `N` answering 200 (making exactly
`N + 1` probes), and if no attempt within the wait window answers 200 it
raises the `MobSFError` timeout message.  (The default window is the
source's default argument `timeout = 120`.) -/
theorem c9_readiness_probe :
    ∀ (probe : Nat → Option Nat) (base_url : String) (timeout : Nat),
      (∀ N, 3 * N < timeout → probe N = some 200 →
        (∀ k, k < N → probe k ≠ some 200) →
        wait_for_server probe base_url timeout = (N + 1, .ok ())) ∧
      ((∀ k, 3 * k < timeout → probe k ≠ some 200) →
        (wait_for_server probe base_url timeout).2 =
          .error ("MobSF server at " ++ base_url ++ " did not become ready within " ++
            toString timeout ++ " seconds.")) := by
  intro probe base_url timeout
  constructor
  · intro N hN hs hmin
    exact waitForServerGo_success probe base_url timeout N hN hs N 0 rfl (by omega)
      (fun k _ hk2 => hmin k hk2)
  · intro hfail
    exact waitForServerGo_timeout probe base_url timeout hfail timeout 0 (by omega)

/-- C9 witness: a probe failing at attempt 0 (network error), answering 503
at attempt 1 and 200 at attempt 2 stops after exactly 3 probes within the
default 120-second window; a probe always answering 503 with a 6-second
window times out with the error message. -/
theorem c9_readiness_probe_witness :
    wait_for_server
      (fun k => if k = 2 then some 200 else if k = 0 then none else some 503)
      "http://127.0.0.1:8000" = (3, .ok ()) ∧
    (wait_for_server (fun _ => some 503) "http://127.0.0.1:8000" 6).2 =
      .error ("MobSF server at " ++ "http://127.0.0.1:8000" ++
        " did not become ready within " ++ toString 6 ++ " seconds.") := by
  constructor
  · exact (c9_readiness_probe
      (fun k => if k = 2 then some 200 else if k = 0 then none else some 503)
      "http://127.0.0.1:8000" 120).1 2 (by omega) (by decide)
      (fun k hk => by interval_cases k <;> simp)
  · exact (c9_readiness_probe (fun _ => some 503) "http://127.0.0.1:8000" 6).2
      (fun k _ => by simp)

/-- C8 counterexample: the claim says the written file content equals the raw
response byte for byte.  Take the service response whose body is
`{"controls": []}` sent in the standard compact JSON serialisation
(`jsonDumpsCompact`, i.e. `json.dumps` with default separators — 16
characters with no newline).  The audit writes
`json.dumps(parsed, indent=2)`, which renders the same document pretty-printed
over three lines, so the written bytes differ from the raw response. -/
theorem c8_verbatim_counterexample :
    (run_masvs_audit_tail [("controls", JValue.arr [])] "L2" true (some "report.json")).1 =
      [.mkdirParents "report.json",
       .writeFile "report.json" "\x7b\n  \"controls\": []\n\x7d"] ∧
    "\x7b\n  \"controls\": []\n\x7d" ≠ jsonDumpsCompact (.obj [("controls", JValue.arr [])]) :=
  ⟨rfl, by decide⟩

/-- C8 amended: when an output path is given, the audit creates the parent
directory and writes `json.dumps(masvs_raw, indent=2)` — the parsed
compliance payload re-serialised as indent-2 JSON, not the raw response
bytes — to that path; this happens for every payload, and the
classification outcome is the same with or without the write (writing
precedes and does not depend on interpretation). -/
theorem c8_report_written_reserialized :
    ∀ (masvs_raw : List (String × JValue)) (level : String)
      (fail_on_violation : Bool) (p : String),
      (run_masvs_audit_tail masvs_raw level fail_on_violation (some p)).1 =
        [.mkdirParents p, .writeFile p (jsonDumpsIndent2 (.obj masvs_raw) 0)] ∧
      (run_masvs_audit_tail masvs_raw level fail_on_violation none).1 = [] ∧
      (run_masvs_audit_tail masvs_raw level fail_on_violation (some p)).2 =
        (run_masvs_audit_tail masvs_raw level fail_on_violation none).2 :=
  fun _ _ _ _ => ⟨rfl, rfl, rfl⟩

end MobsfCi
